import Mathlib

/-!
Shallow embedding of `shade/task_manager.py` (the Task / TaskManager
protocol) and proofs of the spec's claims about it.

Python values are modelled by the inductive `Value`; exceptions by `Err`
together with an opaque traceback token `Tb`; a task's mutable fields by
the record `TaskState`, with methods embedded as explicit state-passing
functions.  The external collaborators `meta.obj_to_dict` and
`meta.obj_list_to_dict` (imported by the source, not part of it) are
taken as function parameters throughout.
-/

set_option autoImplicit false

namespace Shade

/-- Opaque traceback token standing for a Python traceback object
(`sys.exc_info()[2]`). -/
abbrev Tb := Nat

/-- Traceback token attached to exceptions raised inside `done` or by a
failed `getattr`; the concrete value is irrelevant, only propagation is. -/
def doneTb : Tb := 0

/-- Python runtime values, as far as `task_manager.py` inspects them:
the classifier `_is_objlike` discriminates on bool, int, float, text,
set and tuple; `_is_listlike` on list and generator; `RequestTask.done`
indexes dicts.  Floats are opaque (only their type tag matters here). -/
inductive Value where
  | none
  | bool (b : Bool)
  | int (n : Int)
  | float (bits : Nat)
  | str (s : String)
  | set (xs : List Value)
  | tuple (xs : List Value)
  | list (xs : List Value)
  | gen (xs : List Value)
  | obj (cls : String) (fields : List (String × Value))
  | dict (fields : List (String × Value))

/-- Exception kinds the embedded code distinguishes.
`retriableConnectionFailure` models
`keystoneauth1.exceptions.RetriableConnectionFailure`; the others model
ordinary Python exceptions (all inherit `Exception`). -/
inductive Err where
  | retriableConnectionFailure
  | keyError (k : String)
  | typeError (msg : String)
  | attributeError (a : String)
  | other (msg : String)
deriving DecidableEq

/-- A raised exception together with its traceback. -/
abbrev FailT := Err × Tb

/-- A failure as observed by a caller of `wait`: the stored exception and
the stored (optional) traceback it is re-raised with via `six.reraise`. -/
abbrev Failure := Err × Option Tb

/-- Source `_is_listlike`: `isinstance(obj, list) or
isinstance(obj, types.GeneratorType)`. -/
def _is_listlike : Value → Bool
  | .list _ => true
  | .gen _ => true
  | _ => false

/-- Source `_is_objlike`: not bool, not int, not float, not a string
type, not set, not tuple. -/
def _is_objlike : Value → Bool
  | .bool _ => false
  | .int _ => false
  | .float _ => false
  | .str _ => false
  | .set _ => false
  | .tuple _ => false
  | _ => true

/-- An HTTP response object as consumed by `RequestTask.done`:
`.json()` either parses (`jsonBody = some v`) or raises a decode error
(`jsonBody = none`), `.text` is the raw body, `.headers` a mapping. -/
structure Response where
  jsonBody : Option Value
  text : String
  headers : List (String × String)

/-- Mapping lookup with a default of absent: `headers.get(key)`. -/
def headersGet (hs : List (String × String)) (k : String) : Option String :=
  (hs.find? (fun p => p.1 = k)).map Prod.snd

/-- Python subscription `v[k]` with a string key, as it behaves on the
values a parsed (or fallen-back) response body can be: a dict looks the
key up (raising `KeyError` when absent); anything else — in particular
the raw text string after a decode fallback — raises `TypeError`. -/
def getItem (v : Value) (k : String) : Except Err Value :=
  match v with
  | .dict fields =>
    match fields.find? (fun p => p.1 = k) with
    | some p => .ok p.2
    | Option.none => .error (.keyError k)
  | _ => .error (.typeError "value is not subscriptable by a string key")

/-- The mutable fields a `BaseTask` instance carries
(`_exception`, `_traceback`, `_result`, `_response`, `_finished`), plus
`_request_id` which `RequestTask.done` assigns.  `_finished` is the
threading event, reduced to its set/unset bit. -/
structure TaskState where
  _exception : Option Err := Option.none
  _traceback : Option Tb := Option.none
  _result : Value := Value.none
  _response : Option Response := Option.none
  _finished : Bool := false
  _request_id : Option String := Option.none

/-- Fresh task state as set up by `BaseTask.__init__`. -/
def initState : TaskState := {}

/-- Source `BaseTask.done`: store the result, then set the event. -/
def BaseTask.done (s : TaskState) (result : Value) : TaskState :=
  { s with _result := result, _finished := true }

/-- Source `BaseTask.exception`: store the exception and its traceback,
then set the event. -/
def BaseTask.exception (s : TaskState) (e : Err) (tb : Tb) : TaskState :=
  { s with _exception := some e, _traceback := some tb, _finished := true }

/-- Source `BaseTask.wait`: after the event wait, re-raise the stored
exception with its traceback when one is set (exception instances are
truthy), else return the stored result.  The method assigns no field, so
the state component of the pair is the input state unchanged. -/
def BaseTask.wait (s : TaskState) : Except Failure Value × TaskState :=
  (match s._exception with
   | some e => .error (e, s._traceback)
   | Option.none => .ok s._result, s)

/-- Source `Task.wait`: first the inherited wait (which re-raises a
stored failure), then either the raw result, or the stored result
normalized through the classifier — lists/generators via
`meta.obj_list_to_dict`, object-like values via `meta.obj_to_dict`,
everything else unchanged.  The conversions are external collaborators,
passed as parameters. -/
def Task.wait (obj_to_dict : Value → Value) (obj_list_to_dict : Value → Value)
    (s : TaskState) (raw : Bool) : Except Failure Value × TaskState :=
  match BaseTask.wait s with
  | (.error f, s1) => (.error f, s1)
  | (.ok _, s1) =>
    if raw then (.ok s1._result, s1)
    else if _is_listlike s1._result then (.ok (obj_list_to_dict s1._result), s1)
    else if _is_objlike s1._result then (.ok (obj_to_dict s1._result), s1)
    else (.ok s1._result, s1)

/-- Source `RequestTask.wait`: as `Task.wait`, but the conversions also
receive the stored request-correlation identifier. -/
def RequestTask.wait (obj_to_dict : Value → Option String → Value)
    (obj_list_to_dict : Value → Option String → Value)
    (s : TaskState) (raw : Bool) : Except Failure Value × TaskState :=
  match BaseTask.wait s with
  | (.error f, s1) => (.error f, s1)
  | (.ok _, s1) =>
    if raw then (.ok s1._result, s1)
    else if _is_listlike s1._result then
      (.ok (obj_list_to_dict s1._result s1._request_id), s1)
    else if _is_objlike s1._result then
      (.ok (obj_to_dict s1._result s1._request_id), s1)
    else (.ok s1._result, s1)

/-- Source `RunTask.wait` (the class produced by `generate_task_class`):
it first calls `Task.wait` with its default `raw=False` — whose
normalized return value it discards — and then returns either the raw
stored result or `result_filter_cb` applied to the stored result. -/
def RunTask.wait (obj_to_dict : Value → Value) (obj_list_to_dict : Value → Value)
    (result_filter_cb : Value → Value) (s : TaskState) (raw : Bool) :
    Except Failure Value × TaskState :=
  match Task.wait obj_to_dict obj_list_to_dict s false with
  | (.error f, s1) => (.error f, s1)
  | (.ok _, s1) =>
    if raw then (.ok s1._result, s1)
    else (.ok (result_filter_cb s1._result), s1)

/-- First-class test for the retriable exception class, mirroring the
`except keystoneauth1.exceptions.RetriableConnectionFailure` clause. -/
def Err.isRetriable : Err → Bool
  | .retriableConnectionFailure => true
  | _ => false

/-- Outcome of one call to a `done` override: the (possibly partially
updated) task state, the debug-log lines emitted, and the exception the
call raised, when it raised one. -/
structure DoneResult where
  state : TaskState
  logs : List String
  raised : Option FailT

/-- Outcome of `BaseTask.run`: the final task state, how many times the
work function `main` was invoked, and the debug-log lines emitted. -/
structure RunResult where
  state : TaskState
  mainCalls : Nat
  logs : List String

/-- The debug line logged before the single retry. -/
def retryLog (name : String) : String :=
  "Connection failure for " ++ name ++ ", retrying"

/-- Source `BaseTask.run`, generic over the task's `main` and its `done`
override.  The nested try blocks: the inner try wraps the first
`self.done(self.main(client))`; a `RetriableConnectionFailure` raised
there triggers the log plus one re-execution inside the handler (whose
own failures, retriable or not, propagate to the outer handler); any
exception reaching the outer handler is stored via `self.exception`
with its traceback.  `main` is indexed by invocation count so stateful
work functions (closures) are representable. -/
def BaseTask.runWith {α : Type} (name : String)
    (doneFn : TaskState → α → DoneResult)
    (main : Nat → Except FailT α) (s : TaskState) : RunResult :=
  match main 0 with
  | .ok v =>
    let d := doneFn s v
    match d.raised with
    | Option.none => { state := d.state, mainCalls := 1, logs := d.logs }
    | some (e, tb) =>
      if e.isRetriable then
        match main 1 with
        | .ok v2 =>
          let d2 := doneFn d.state v2
          match d2.raised with
          | Option.none =>
            { state := d2.state, mainCalls := 2,
              logs := d.logs ++ [retryLog name] ++ d2.logs }
          | some (e2, tb2) =>
            { state := BaseTask.exception d2.state e2 tb2, mainCalls := 2,
              logs := d.logs ++ [retryLog name] ++ d2.logs }
        | .error (e2, tb2) =>
          { state := BaseTask.exception d.state e2 tb2, mainCalls := 2,
            logs := d.logs ++ [retryLog name] }
      else
        { state := BaseTask.exception d.state e tb,
          mainCalls := 1, logs := d.logs }
  | .error (e, tb) =>
    if e.isRetriable then
      match main 1 with
      | .ok v =>
        let d := doneFn s v
        match d.raised with
        | Option.none =>
          { state := d.state, mainCalls := 2, logs := retryLog name :: d.logs }
        | some (e2, tb2) =>
          { state := BaseTask.exception d.state e2 tb2, mainCalls := 2,
            logs := retryLog name :: d.logs }
      | .error (e2, tb2) =>
        { state := BaseTask.exception s e2 tb2, mainCalls := 2,
          logs := [retryLog name] }
    else
      { state := BaseTask.exception s e tb, mainCalls := 1, logs := [] }

/-- The `done` of `BaseTask` and `Task` (and of the factory's `RunTask`):
store the result, set the event, raise nothing, log nothing. -/
def plainDone (s : TaskState) (v : Value) : DoneResult :=
  { state := BaseTask.done s v, logs := [], raised := Option.none }

/-- `run` as executed by a task whose `done` is the inherited
`BaseTask.done`. -/
def Task.runPlain (name : String) (main : Nat → Except FailT Value)
    (s : TaskState) : RunResult :=
  BaseTask.runWith name plainDone main s

/-- Python truthiness of the `result_key` attribute
(`if self.result_key:`): `None` and the empty string are falsy. -/
def truthyKey : Option String → Bool
  | Option.none => false
  | some s => s ≠ ""

/-- Source `RequestTask.done`: store the raw response; parse its body as
JSON, falling back to the raw text on a decode error (logging the error
and the body — a local recovery, not a raise); if `result_key` is truthy
narrow by subscription (which can raise `KeyError`/`TypeError`, aborting
before `_result`, `_request_id` and the event are set); record the
request id header; set the event. -/
def RequestTask.done (result_key : Option String) (s : TaskState)
    (resp : Response) : DoneResult :=
  let s1 : TaskState := { s with _response := some resp }
  let parsed := resp.jsonBody
  let result_json := match parsed with
    | some v => v
    | Option.none => Value.str resp.text
  let decodeLogs := match parsed with
    | some _ => []
    | Option.none => ["Could not decode json in response", resp.text]
  if truthyKey result_key then
    match getItem result_json (result_key.getD "") with
    | .ok v =>
      { state := { s1 with
          _result := v,
          _request_id := headersGet resp.headers "x-openstack-request-id",
          _finished := true },
        logs := decodeLogs, raised := Option.none }
    | .error e =>
      { state := s1, logs := decodeLogs, raised := some (e, doneTb) }
  else
    { state := { s1 with
        _result := result_json,
        _request_id := headersGet resp.headers "x-openstack-request-id",
        _finished := true },
      logs := decodeLogs, raised := Option.none }

/-- `run` as executed by a `RequestTask`, whose `main` yields a raw
response consumed by the overridden `done`. -/
def RequestTask.run (name : String) (result_key : Option String)
    (main : Nat → Except FailT Response) (s : TaskState) : RunResult :=
  BaseTask.runWith name (RequestTask.done result_key) main s

/-- Keyword arguments held in `self.args`. -/
abbrev KwArgs := List (String × Value)

/-- The work reference accepted by `generate_task_class` /
`submit_function`: a direct callable (with its `__name__`), or the name
of a method to resolve on the client at execution time.  Callables are
indexed by invocation count so stateful behaviour is representable. -/
inductive Method where
  | callable (fname : String) (f : KwArgs → Nat → Except FailT Value)
  | byName (s : String)

/-- The client handle: named callable attributes (absent names make
`getattr` raise `AttributeError`). -/
structure Client where
  methods : String → Option (KwArgs → Nat → Except FailT Value)

/-- The data captured by the class `generate_task_class` returns: the
work reference, the resolved display name, and the result filter. -/
structure RunTaskCfg where
  method : Method
  name : String
  result_filter_cb : Value → Value

/-- Source `generate_task_class`: resolve the display name (the given
name, else the callable's `__name__`, else the method-name string) and
package it with the work reference and the result filter. -/
def generate_task_class (method : Method) (name : Option String)
    (result_filter_cb : Value → Value) : RunTaskCfg :=
  { method,
    name := match name with
      | some n => n
      | Option.none => match method with
        | .callable fname _ => fname
        | .byName s => s,
    result_filter_cb }

/-- Source `RunTask.main`: a callable is invoked directly with the
task's args; a method name is resolved on the client by `getattr` and
invoked with the same args. -/
def RunTask.mainB (client : Client) (cfg : RunTaskCfg) (args : KwArgs) :
    Nat → Except FailT Value :=
  fun k => match cfg.method with
    | .callable _ f => f args k
    | .byName n =>
      match client.methods n with
      | some meth => meth args k
      | Option.none => .error (Err.attributeError n, doneTb)

/-- Source module-level `_result_filter_cb`: the identity default. -/
def _result_filter_cb (result : Value) : Value := result

/-- The `TaskManager` instance attributes set by `__init__`. -/
structure TaskManager where
  name : String
  _client : Client
  _result_filter_cb : Value → Value

/-- Source `TaskManager.__init__`: a falsy `result_filter_cb` argument
(`None`) selects the module-level identity default. -/
def TaskManager.new (client : Client) (name : String)
    (result_filter_cb : Option (Value → Value)) : TaskManager :=
  { name, _client := client,
    _result_filter_cb := match result_filter_cb with
      | Option.none => Shade._result_filter_cb
      | some f => f }

/-- Attribute names resolvable on a `TaskManager` instance: those bound
by `__init__` plus those defined in the class body.  There is no
attribute named `manager`. -/
def TaskManager.attrNames : List String :=
  ["name", "_client", "_result_filter_cb",
   "log", "stop", "run", "submit_task", "submitTask", "submit_function"]

/-- Attribute lookup success on a `TaskManager` instance. -/
def TaskManager.hasattr (a : String) : Bool :=
  a ∈ TaskManager.attrNames

/-- Source `TaskManager.submit_task` applied to a factory-generated
task: run the task against the manager's bound client, then return
`task.wait(raw)` (re-raising a stored failure).  The external
conversions are parameters, as in `Task.wait`. -/
def TaskManager.submit_task (obj_to_dict obj_list_to_dict : Value → Value)
    (tm : TaskManager) (cfg : RunTaskCfg) (args : KwArgs) (raw : Bool) :
    Except Failure Value :=
  let r := Task.runPlain cfg.name (RunTask.mainB tm._client cfg args) initState
  (RunTask.wait obj_to_dict obj_list_to_dict cfg.result_filter_cb r.state raw).fst

/-- Source `TaskManager.submit_function`: pick the manager's default
filter when none is supplied, build the task class via
`generate_task_class`, then evaluate `self.manager.submit_task(...)`.
The callee expression is evaluated before its argument, and the instance
has no attribute `manager`, so the attribute lookup raises
`AttributeError` (with a fresh traceback, not a stored one). -/
def TaskManager.submit_function (obj_to_dict obj_list_to_dict : Value → Value)
    (tm : TaskManager) (method : Method) (name : Option String)
    (result_filter_cb : Option (Value → Value)) (kwargs : KwArgs) :
    Except Failure Value :=
  let rfc := match result_filter_cb with
    | Option.none => tm._result_filter_cb
    | some f => f
  let cfg := generate_task_class method name rfc
  if TaskManager.hasattr "manager" then
    TaskManager.submit_task obj_to_dict obj_list_to_dict tm cfg kwargs false
  else
    .error (Err.attributeError "manager", Option.none)

/-- Scalar primitives in the sense of the classifier: exactly the types
`_is_objlike` excludes. -/
def isPrimitiveScalar : Value → Bool
  | .bool _ => true
  | .int _ => true
  | .float _ => true
  | .str _ => true
  | .set _ => true
  | .tuple _ => true
  | _ => false

lemma baseTask_wait_snd (s : TaskState) : (BaseTask.wait s).snd = s := rfl

lemma task_wait_snd (o l : Value → Value) (s : TaskState) (raw : Bool) :
    (Task.wait o l s raw).snd = s := by
  unfold Task.wait BaseTask.wait
  cases s._exception <;> cases raw <;> simp
  all_goals split_ifs <;> simp

lemma requestTask_wait_snd (o l : Value → Option String → Value)
    (s : TaskState) (raw : Bool) : (RequestTask.wait o l s raw).snd = s := by
  unfold RequestTask.wait BaseTask.wait
  cases s._exception <;> cases raw <;> simp
  all_goals split_ifs <;> simp

lemma runTask_wait_snd (o l f : Value → Value) (s : TaskState) (raw : Bool) :
    (RunTask.wait o l f s raw).snd = s := by
  unfold RunTask.wait Task.wait BaseTask.wait
  cases s._exception <;> cases raw <;> simp <;> split_ifs <;> simp

/-- C1: `submit_function` never reaches `submit_task`: after building the
task class it evaluates `self.manager.submit_task(...)`, and a
`TaskManager` instance has no attribute `manager`, so every call raises
`AttributeError` instead of returning `submit_task`'s result. -/
theorem submit_function_hits_missing_manager_attribute :
    ∀ (o l : Value → Value) (tm : TaskManager) (method : Method)
      (name : Option String) (rfc : Option (Value → Value)) (kwargs : KwArgs),
      TaskManager.hasattr "manager" = false ∧
      TaskManager.submit_function o l tm method name rfc kwargs
        = .error (Err.attributeError "manager", Option.none) := by
  intro o l tm method name rfc kwargs
  exact ⟨rfl, rfl⟩

/-- C3: `run` executes the work function once; only when the first
execution raises the retriable transport failure does it log the retry
and execute exactly one more time, and the task's final state is decided
by the last execution — success stores the result via `done`, any other
failure (including a second retriable one) stores that error via
`exception`. -/
theorem run_retries_exactly_once_on_retriable_failure :
    ∀ (name : String) (main : Nat → Except FailT Value) (s : TaskState),
      ((Task.runPlain name main s).mainCalls =
        match main 0 with
        | .error (e, _) => if e.isRetriable then 2 else 1
        | .ok _ => 1) ∧
      ((Task.runPlain name main s).logs =
        match main 0 with
        | .error (e, _) => if e.isRetriable then [retryLog name] else []
        | .ok _ => []) ∧
      ((Task.runPlain name main s).state =
        match main ((Task.runPlain name main s).mainCalls - 1) with
        | .ok v => BaseTask.done s v
        | .error (e, tb) => BaseTask.exception s e tb) := by
  intro name main s
  unfold Task.runPlain BaseTask.runWith plainDone
  cases h0 : main 0 with
  | ok v => simp [h0]
  | error etb =>
    obtain ⟨e, tb⟩ := etb
    cases he : e.isRetriable with
    | false => simp [h0, he]
    | true =>
      cases h1 : main 1 with
      | ok v => simp [h0, h1, he]
      | error etb2 =>
        obtain ⟨e2, tb2⟩ := etb2
        simp [h0, h1, he]

/-- C2 counterexample: a factory task whose stored result is the list
`[dict [("id",1)], dict [("id",2)]]`, observed with the default identity
filter and an `obj_list_to_dict` under which the normalized sequence is
`Value.none`.  The claim predicts `wait(raw=False)` returns the filter
applied to the normalized result, i.e. `.ok Value.none`; the code
returns the stored list itself, because `RunTask.wait` applies the
filter to the raw stored result (the normalized value computed by the
inherited wait is discarded). -/
theorem runTask_wait_skips_normalization_counterexample :
    (RunTask.wait (fun v => v) (fun _ => Value.none) (fun r => r)
      { initState with
          _result := Value.list [Value.dict [("id", Value.int 1)],
                                 Value.dict [("id", Value.int 2)]],
          _finished := true } false).fst
      = .ok (Value.list [Value.dict [("id", Value.int 1)],
                         Value.dict [("id", Value.int 2)]]) ∧
    (RunTask.wait (fun v => v) (fun _ => Value.none) (fun r => r)
      { initState with
          _result := Value.list [Value.dict [("id", Value.int 1)],
                                 Value.dict [("id", Value.int 2)]],
          _finished := true } false).fst
      ≠ .ok Value.none := by
  refine ⟨rfl, fun h => ?_⟩
  exact Value.noConfusion (Except.ok.inj h)

/-- C2 amended: on a successfully finished factory task,
`wait(raw=False)` returns the result filter applied to the raw stored
result (no normalization reaches the caller), `wait(raw=True)` returns
the stored result, and with the default identity filter both return the
exact original value. -/
theorem runTask_wait_filters_raw_result :
    ∀ (o l fcb : Value → Value) (s : TaskState),
      s._finished = true →
      s._exception = Option.none →
      (RunTask.wait o l fcb s false).fst = .ok (fcb s._result) ∧
      (RunTask.wait o l fcb s true).fst = .ok s._result ∧
      (RunTask.wait o l Shade._result_filter_cb s false).fst
        = .ok s._result := by
  intro o l fcb s _ he
  unfold RunTask.wait Task.wait BaseTask.wait _result_filter_cb
  simp [he]
  constructor <;> split_ifs <;> simp

/-- Witness for C2 amended: a non-identity filter applied to the raw
stored list. -/
theorem runTask_wait_filters_raw_result_witness :
    (RunTask.wait id id (fun v => Value.dict [("wrapped", v)])
      (BaseTask.done initState (Value.list [])) false).fst
      = .ok (Value.dict [("wrapped", Value.list [])]) :=
  (runTask_wait_filters_raw_result id id (fun v => Value.dict [("wrapped", v)])
    (BaseTask.done initState (Value.list [])) rfl rfl).1

lemma runPlain_state_finished (name : String)
    (main : Nat → Except FailT Value) (s : TaskState) :
    (Task.runPlain name main s).state._finished = true := by
  unfold Task.runPlain BaseTask.runWith plainDone
  cases h0 : main 0 with
  | ok v => simp [BaseTask.done]
  | error etb =>
    obtain ⟨e, tb⟩ := etb
    cases he : e.isRetriable with
    | false => simp [he, BaseTask.exception]
    | true =>
      cases h1 : main 1 with
      | ok v => simp [he, h1, BaseTask.done]
      | error etb2 =>
        obtain ⟨e2, tb2⟩ := etb2
        simp [he, h1, BaseTask.exception]

lemma requestTask_done_finished (rk : Option String) (s : TaskState)
    (resp : Response) :
    (RequestTask.done rk s resp).state._finished
      = ((RequestTask.done rk s resp).raised.isNone || s._finished) := by
  unfold RequestTask.done
  cases hk : truthyKey rk with
  | false => simp [hk]
  | true =>
    cases hg : getItem (match resp.jsonBody with
      | some v => v
      | Option.none => Value.str resp.text) (rk.getD "") with
    | ok v => simp [hk, hg]
    | error e => simp [hk, hg]

lemma runRequest_state_finished (name : String) (rk : Option String)
    (main : Nat → Except FailT Response) (s : TaskState) :
    (RequestTask.run name rk main s).state._finished = true := by
  have hfin : ∀ (s2 : TaskState) (resp : Response),
      (RequestTask.done rk s2 resp).raised = Option.none →
      (RequestTask.done rk s2 resp).state._finished = true := by
    intro s2 resp hr
    have := requestTask_done_finished rk s2 resp
    simp [hr] at this
    exact this
  unfold RequestTask.run BaseTask.runWith
  cases h0 : main 0 with
  | ok v =>
    cases hr : (RequestTask.done rk s v).raised with
    | none => simpa [hr] using hfin s v hr
    | some etb =>
      obtain ⟨e, tb⟩ := etb
      cases he : e.isRetriable with
      | false => simp [hr, he, BaseTask.exception]
      | true =>
        cases h1 : main 1 with
        | ok v2 =>
          cases hr2 : (RequestTask.done rk (RequestTask.done rk s v).state
              v2).raised with
          | none =>
            simpa [hr, he, h1, hr2] using
              hfin (RequestTask.done rk s v).state v2 hr2
          | some etb2 =>
            obtain ⟨e2, tb2⟩ := etb2
            simp [hr, he, h1, hr2, BaseTask.exception]
        | error etb2 =>
          obtain ⟨e2, tb2⟩ := etb2
          simp [hr, he, h1, BaseTask.exception]
  | error etb =>
    obtain ⟨e, tb⟩ := etb
    cases he : e.isRetriable with
    | false => simp [he, BaseTask.exception]
    | true =>
      cases h1 : main 1 with
      | ok v =>
        cases hr : (RequestTask.done rk s v).raised with
        | none => simpa [he, h1, hr] using hfin s v hr
        | some etb2 =>
          obtain ⟨e2, tb2⟩ := etb2
          simp [he, h1, hr, BaseTask.exception]
      | error etb2 =>
        obtain ⟨e2, tb2⟩ := etb2
        simp [he, h1, BaseTask.exception]

lemma runPlain_outcome (name : String) (main : Nat → Except FailT Value) :
    (∃ v, (Task.runPlain name main initState).state
        = BaseTask.done initState v ∧
        (Task.runPlain name main initState).state._exception
          = Option.none) ∨
    (∃ e tb, (Task.runPlain name main initState).state
        = BaseTask.exception initState e tb ∧
        (Task.runPlain name main initState).state._result = Value.none) := by
  unfold Task.runPlain BaseTask.runWith plainDone
  cases h0 : main 0 with
  | ok v =>
    left
    exact ⟨v, by simp, by simp [BaseTask.done, initState]⟩
  | error etb =>
    obtain ⟨e, tb⟩ := etb
    cases he : e.isRetriable with
    | false =>
      right
      exact ⟨e, tb, by simp [he], by simp [he, BaseTask.exception, initState]⟩
    | true =>
      cases h1 : main 1 with
      | ok v =>
        left
        exact ⟨v, by simp [he, h1], by simp [he, h1, BaseTask.done, initState]⟩
      | error etb2 =>
        obtain ⟨e2, tb2⟩ := etb2
        right
        exact ⟨e2, tb2, by simp [he, h1],
          by simp [he, h1, BaseTask.exception, initState]⟩

/-- C4: the completion protocol.  `done` stores the result and `exception`
stores the error together with its traceback, each leaving the other
outcome field alone, and both set the completion signal; a raising
`RequestTask.done` leaves the signal exactly as it was (it only sets it
on the success path); `run` always terminates with the signal set; and a
task run from a fresh state ends either as `done` with a result and no
stored error, or as `exception` with a stored error and the result field
still at its initial `None` — exactly one of the two outcomes. -/
theorem completion_protocol_invariants :
    ∀ (s : TaskState) (v : Value) (e : Err) (tb : Tb) (name : String)
      (main : Nat → Except FailT Value) (rk : Option String)
      (mainR : Nat → Except FailT Response) (resp : Response),
      ((BaseTask.done s v)._finished = true ∧
       (BaseTask.done s v)._result = v ∧
       (BaseTask.done s v)._exception = s._exception) ∧
      ((BaseTask.exception s e tb)._finished = true ∧
       (BaseTask.exception s e tb)._exception = some e ∧
       (BaseTask.exception s e tb)._traceback = some tb ∧
       (BaseTask.exception s e tb)._result = s._result) ∧
      ((RequestTask.done rk s resp).state._finished
        = ((RequestTask.done rk s resp).raised.isNone || s._finished)) ∧
      (Task.runPlain name main s).state._finished = true ∧
      (RequestTask.run name rk mainR s).state._finished = true ∧
      ((∃ v2, (Task.runPlain name main initState).state
          = BaseTask.done initState v2 ∧
          (Task.runPlain name main initState).state._exception
            = Option.none) ∨
       (∃ e2 tb2, (Task.runPlain name main initState).state
          = BaseTask.exception initState e2 tb2 ∧
          (Task.runPlain name main initState).state._result
            = Value.none)) := by
  intro s v e tb name main rk mainR resp
  exact ⟨⟨rfl, rfl, rfl⟩, ⟨rfl, rfl, rfl, rfl⟩,
    requestTask_done_finished rk s resp,
    runPlain_state_finished name main s,
    runRequest_state_finished name rk mainR s,
    runPlain_outcome name main⟩

/-- C7 counterexample: a `RequestTask` whose `result_key` is configured
(`"servers"`) and whose response body fails JSON decoding.  The text
fallback is then subscripted with the key, which raises `TypeError`
inside `done`: the raw text is not stored as the result, and the task
run with that response terminates in error, which `wait` re-raises — so
the decode failure is not locally recovered for every `RequestTask`. -/
theorem requestTask_decode_failure_counterexample :
    (RequestTask.done (some "servers") initState
      { jsonBody := Option.none, text := "not json", headers := [] }).raised
      = some (Err.typeError "value is not subscriptable by a string key",
              doneTb) ∧
    (RequestTask.done (some "servers") initState
      { jsonBody := Option.none, text := "not json",
        headers := [] }).state._result ≠ Value.str "not json" ∧
    (RequestTask.wait (fun v2 _ => v2) (fun v2 _ => v2)
      (RequestTask.run "ListServers" (some "servers")
        (fun _ => .ok { jsonBody := Option.none, text := "not json",
                        headers := [] }) initState).state false).fst
      = .error (Err.typeError "value is not subscriptable by a string key",
                some doneTb) := by
  refine ⟨rfl, fun h => ?_, rfl⟩
  exact Value.noConfusion h

/-- C7 amended: for a `RequestTask` whose `result_key` is unset (falsy),
a JSON decode failure is recovered locally: `done` stores the raw text
body as the result, logs the failure and the body, raises nothing, and
sets the completion signal. -/
theorem requestTask_decode_failure_falls_back_to_text :
    ∀ (rk : Option String) (s : TaskState) (resp : Response),
      resp.jsonBody = Option.none →
      truthyKey rk = false →
      RequestTask.done rk s resp =
        { state := { s with
            _response := some resp,
            _result := Value.str resp.text,
            _request_id := headersGet resp.headers "x-openstack-request-id",
            _finished := true },
          logs := ["Could not decode json in response", resp.text],
          raised := Option.none } := by
  intro rk s resp hj hk
  unfold RequestTask.done
  simp [hj, hk]

/-- Witness for C7 amended: a default `RequestTask` (no result key)
given an undecodable body stores the raw text. -/
theorem requestTask_decode_failure_falls_back_to_text_witness :
    RequestTask.done Option.none initState
      { jsonBody := Option.none, text := "not json", headers := [] }
      = { state := { initState with
            _response := some ({ jsonBody := Option.none, text := "not json",
                                 headers := [] } : Response),
            _result := Value.str "not json",
            _request_id := Option.none,
            _finished := true },
          logs := ["Could not decode json in response", "not json"],
          raised := Option.none } :=
  requestTask_decode_failure_falls_back_to_text Option.none initState
    { jsonBody := Option.none, text := "not json", headers := [] } rfl rfl

/-- C8: with a truthy `result_key` and a body that parses to a dict,
`done` stores exactly the value at that key when it is present, and
raises `KeyError` when it is absent — in which case running the task
stores that error and `wait` re-raises it like any other failure. -/
theorem result_key_narrows_or_raises_keyerror :
    ∀ (k : String) (s : TaskState) (resp : Response)
      (body : List (String × Value)) (name : String),
      k ≠ "" →
      resp.jsonBody = some (Value.dict body) →
      (RequestTask.done (some k) s resp =
        match body.find? (fun p => p.1 = k) with
        | some p =>
          { state := { s with
              _response := some resp,
              _result := p.2,
              _request_id := headersGet resp.headers "x-openstack-request-id",
              _finished := true },
            logs := [], raised := Option.none }
        | Option.none =>
          { state := { s with _response := some resp }, logs := [],
            raised := some (Err.keyError k, doneTb) }) ∧
      (body.find? (fun p => p.1 = k) = Option.none →
        (RequestTask.wait (fun v2 _ => v2) (fun v2 _ => v2)
          (RequestTask.run name (some k) (fun _ => .ok resp) s).state
          false).fst
        = .error (Err.keyError k, some doneTb)) := by
  intro k s resp body name hk hj
  have hkt : truthyKey (some k) = true := by simp [truthyKey, hk]
  constructor
  · unfold RequestTask.done
    simp [hj, hkt, getItem]
    cases hf : body.find? (fun p => p.1 = k) <;> simp [hf]
  · intro hf
    have hd : RequestTask.done (some k) s resp
        = { state := { s with _response := some resp }, logs := [],
            raised := some (Err.keyError k, doneTb) } := by
      unfold RequestTask.done
      simp [hj, hkt, getItem, hf]
    unfold RequestTask.run BaseTask.runWith
    simp [hd, Err.isRetriable, RequestTask.wait, BaseTask.wait,
      BaseTask.exception]

/-- Witness for C8: body `dict [("flavors", [])]` with configured key
`"servers"` absent — the `KeyError` reaches the caller of `wait`. -/
theorem result_key_narrows_or_raises_keyerror_witness :
    (RequestTask.wait (fun v2 _ => v2) (fun v2 _ => v2)
      (RequestTask.run "ListServers" (some "servers")
        (fun _ => .ok { jsonBody := some (Value.dict
            [("flavors", Value.list [])]), text := "", headers := [] })
        initState).state false).fst
      = .error (Err.keyError "servers", some doneTb) :=
  (result_key_narrows_or_raises_keyerror "servers" initState
    { jsonBody := some (Value.dict [("flavors", Value.list [])]),
      text := "", headers := [] }
    [("flavors", Value.list [])] "ListServers"
    (by decide) rfl).2 rfl

/-- C5: when a task terminated in error, every `wait` variant re-raises
exactly the stored exception with the stored traceback — not a wrapper
and not a different error kind — regardless of the `raw` flag and of the
conversion/filter functions. -/
theorem wait_reraises_stored_exception_verbatim :
    ∀ (o l fcb : Value → Value) (oR lR : Value → Option String → Value)
      (s : TaskState) (raw : Bool) (e : Err),
      s._exception = some e →
      (BaseTask.wait s).fst = .error (e, s._traceback) ∧
      (Task.wait o l s raw).fst = .error (e, s._traceback) ∧
      (RequestTask.wait oR lR s raw).fst = .error (e, s._traceback) ∧
      (RunTask.wait o l fcb s raw).fst = .error (e, s._traceback) := by
  intro o l fcb oR lR s raw e he
  unfold RunTask.wait Task.wait RequestTask.wait BaseTask.wait
  simp [he]

/-- Witness for C5 at a concrete errored task state. -/
theorem wait_reraises_stored_exception_verbatim_witness :
    (Task.wait id id (BaseTask.exception initState (Err.other "boom") 3)
      false).fst = .error (Err.other "boom", some 3) :=
  (wait_reraises_stored_exception_verbatim id id id
    (fun v _ => v) (fun v _ => v)
    (BaseTask.exception initState (Err.other "boom") 3) false
    (Err.other "boom") rfl).2.1

/-- C6: on an already-finished task every `wait` variant is an
idempotent observation: none of them modifies the task state, so a
second call returns the identical outcome (value or re-raised failure)
for the same `raw` flag. -/
theorem wait_observation_is_idempotent :
    ∀ (o l fcb : Value → Value) (oR lR : Value → Option String → Value)
      (s : TaskState) (raw : Bool),
      s._finished = true →
      BaseTask.wait (BaseTask.wait s).snd = BaseTask.wait s ∧
      Task.wait o l (Task.wait o l s raw).snd raw = Task.wait o l s raw ∧
      RequestTask.wait oR lR (RequestTask.wait oR lR s raw).snd raw
        = RequestTask.wait oR lR s raw ∧
      RunTask.wait o l fcb (RunTask.wait o l fcb s raw).snd raw
        = RunTask.wait o l fcb s raw := by
  intro o l fcb oR lR s raw _
  rw [baseTask_wait_snd, task_wait_snd, requestTask_wait_snd, runTask_wait_snd]
  exact ⟨rfl, rfl, rfl, rfl⟩

/-- Witness for C6 at a concrete finished task state. -/
theorem wait_observation_is_idempotent_witness :
    Task.wait id id
      (Task.wait id id (BaseTask.done initState (Value.int 7)) false).snd false
      = Task.wait id id (BaseTask.done initState (Value.int 7)) false :=
  (wait_observation_is_idempotent id id id (fun v _ => v) (fun v _ => v)
    (BaseTask.done initState (Value.int 7)) false rfl).2.1

/-- C9: for a successfully finished task whose stored result is a
boolean, integer, float, text string, set or tuple, both classifiers
reject it and `Task.wait` returns it unchanged with and without `raw` —
normalization is the identity on scalar primitives, whatever the
conversion functions are. -/
theorem scalar_results_pass_through_unconverted :
    ∀ (o l : Value → Value) (s : TaskState),
      s._finished = true →
      s._exception = Option.none →
      isPrimitiveScalar s._result = true →
      _is_listlike s._result = false ∧
      _is_objlike s._result = false ∧
      (Task.wait o l s false).fst = .ok s._result ∧
      (Task.wait o l s true).fst = .ok s._result := by
  intro o l s _ he hp
  have hl : _is_listlike s._result = false := by
    cases h : s._result <;> simp_all [isPrimitiveScalar, _is_listlike]
  have hb : _is_objlike s._result = false := by
    cases h : s._result <;> simp_all [isPrimitiveScalar, _is_objlike]
  refine ⟨hl, hb, ?_, ?_⟩ <;> simp [Task.wait, BaseTask.wait, he, hl, hb]

/-- Witness for C9 at a concrete finished task holding an integer. -/
theorem scalar_results_pass_through_unconverted_witness :
    (Task.wait id id (BaseTask.done initState (Value.int 3)) false).fst
      = .ok (Value.int 3) :=
  (scalar_results_pass_through_unconverted id id
    (BaseTask.done initState (Value.int 3)) rfl rfl rfl).2.2.1

/-- C10: the classifier treats `None` as object-like, so on a
successfully finished task whose stored result is `None`,
`wait(raw=False)` applies the object-to-mapping conversion to `None`,
while only `wait(raw=True)` returns `None` itself. -/
theorem none_result_is_objlike_and_converted :
    ∀ (o l : Value → Value) (s : TaskState),
      s._finished = true →
      s._exception = Option.none →
      s._result = Value.none →
      _is_objlike Value.none = true ∧
      (Task.wait o l s false).fst = .ok (o Value.none) ∧
      (Task.wait o l s true).fst = .ok Value.none := by
  intro o l s _ he hr
  refine ⟨rfl, ?_, ?_⟩ <;>
    simp [Task.wait, BaseTask.wait, he, hr, _is_listlike, _is_objlike]

/-- Witness for C10: a work function that returned `None`, observed with
a conversion that wraps its argument in a mapping. -/
theorem none_result_is_objlike_and_converted_witness :
    (Task.wait (fun v => Value.dict [("value", v)]) id
      (BaseTask.done initState Value.none) false).fst
      = .ok (Value.dict [("value", Value.none)]) :=
  (none_result_is_objlike_and_converted
    (fun v => Value.dict [("value", v)]) id
    (BaseTask.done initState Value.none) rfl rfl rfl).2.1

end Shade
